import Mathlib

/-!
# GreenArb: simulated hardware telemetry (`rocm_telemetry.cpp`)

A shallow embedding of `HardwareTelemetrySim` and of the body of the loop of
`main`, with the properties of the generator and of the snapshot writer.

Modelling conventions.

* `double` is an ordered field `K` with a floor function; the library
  functions `std::sin` and `std::cos` are parameters `sin cos : K → K`.  The
  definitions run on `ℚ` with any computable `sin`/`cos`.  The ranges of the
  signals and their values at tick `0` are stated for `ℝ` with `Real.sin` and
  `Real.cos`; the rounding of `double` operations is not modelled, so nothing
  is stated here about the exact value of a signal at a tick other than `0`.
* `uint64_t` is a `Nat` reduced modulo `2 ^ 64`.  `static_cast<uint64_t>` of a
  `double` discards the fraction (toward zero); for a negative result the model
  takes the two's complement residue, which is what the x86-64 conversion
  through a signed 64-bit integer produces (the C++ standard leaves that
  conversion undefined).
* `int tick` is a 32-bit two's complement integer: `tick++` at `INT_MAX`
  (undefined in C++) is modelled by the wrapped value `INT_MIN`.
* The clock, the file system and the streams are explicit: an iteration takes
  what it reads from outside (`Surroundings`) and maps a `World` to a `World`.
  `operator<<` is a parameter `fmt : K → String` of the loop for a `double`,
  and `format_double` is the text it writes under the default flags of a
  stream; a `uint64_t` is written in decimal.  The sleep between iterations is
  not modelled.
-/

namespace GreenArb

/-! ## Machine arithmetic -/

/-- The modulus of `uint64_t`. -/
def UINT64_MODULUS : Nat := 2 ^ 64

/-- The largest `int`. -/
def INT_MAX : Int := 2147483647

/-- The smallest `int`. -/
def INT_MIN : Int := -2147483648

/-- Reduction of an integer to the range of a 32-bit `int`. -/
def wrap_int (i : Int) : Int := (i + 2147483648) % 4294967296 - 2147483648

/-- Conversion of a `double` to an integer discards the fractional part. -/
def truncate {K : Type} [LinearOrderedField K] [FloorRing K] (x : K) : Int :=
  if 0 ≤ x then Int.floor x else Int.ceil x

/-- The conversion `static_cast<uint64_t>(x)` of a `double`. -/
def static_cast_uint64 {K : Type} [LinearOrderedField K] [FloorRing K] (x : K) : Nat :=
  (truncate x % (UINT64_MODULUS : Int)).toNat

/-! ## The generator -/

/-- The private members of `HardwareTelemetrySim`. -/
structure HardwareTelemetrySim where
  device_index : Nat
  tick : Int
  deriving DecidableEq

namespace HardwareTelemetrySim

variable {K : Type} [LinearOrderedField K]

/-- The member initialisers of the constructor: `device_index(dev_idx), tick(0)`. -/
def create (dev_idx : Nat) : HardwareTelemetrySim :=
  { device_index := dev_idx, tick := 0 }

/-- The method body `return 300 + static_cast<uint64_t>(50.0 * std::sin(tick * 0.5));` -/
def get_simulated_power_draw_watts [FloorRing K] (sin : K → K)
    (self : HardwareTelemetrySim) : Nat :=
  (300 + static_cast_uint64 (50.0 * sin ((self.tick : K) * 0.5))) % UINT64_MODULUS

/-- The method body `return 65 + static_cast<uint64_t>(10.0 * std::cos(tick * 0.3));` -/
def get_simulated_temperature_c [FloorRing K] (cos : K → K)
    (self : HardwareTelemetrySim) : Nat :=
  (65 + static_cast_uint64 (10.0 * cos ((self.tick : K) * 0.3))) % UINT64_MODULUS

/-- The body of `get_tangedco_carbon_intensity` for a local hour `tm_hour`, with
the value `initial` given to the local variable `intensity` at its declaration. -/
def tangedco_carbon_intensity_from (initial : K) (sin : K → K) (tm_hour : Int)
    (self : HardwareTelemetrySim) : K := Id.run do
  let mut intensity := initial
  if tm_hour ≥ 18 ∧ tm_hour ≤ 22 then
    intensity := 650.0 + 50.0 * sin ((self.tick : K) * 0.1)
  else if tm_hour ≥ 10 ∧ tm_hour ≤ 16 then
    intensity := 350.0 + 30.0 * sin ((self.tick : K) * 0.1)
  else
    intensity := 450.0 + 40.0 * sin ((self.tick : K) * 0.1)
  return intensity

/-- The method `get_tangedco_carbon_intensity`; `tm_hour` is the hour of the
local time it reads from the system clock, and `double intensity = 420.0`. -/
def get_tangedco_carbon_intensity (sin : K → K) (tm_hour : Int)
    (self : HardwareTelemetrySim) : K :=
  tangedco_carbon_intensity_from 420.0 sin tm_hour self

/-- The method body `return 1500 + static_cast<uint64_t>(200.0 * std::cos(tick * 0.2));` -/
def get_simulated_vram_bandwidth_usage [FloorRing K] (cos : K → K)
    (self : HardwareTelemetrySim) : Nat :=
  (1500 + static_cast_uint64 (200.0 * cos ((self.tick : K) * 0.2))) % UINT64_MODULUS

/-- The method body `return 98.7 + 1.2 * std::abs(std::sin(tick * 0.05));` -/
def get_hbm3e_efficiency (sin : K → K) (self : HardwareTelemetrySim) : K :=
  98.7 + 1.2 * |sin ((self.tick : K) * 0.05)|

/-- The method `advance_tick`: `tick++` on an `int`. -/
def advance_tick (self : HardwareTelemetrySim) : HardwareTelemetrySim :=
  { self with tick := wrap_int (self.tick + 1) }

end HardwareTelemetrySim

open HardwareTelemetrySim

/-! ## The loop of `main` -/

/-- The constant `pipe_path` of `main`. -/
def pipe_path : String :=
  "C:\\Users\\K.Visagan\\.gemini\\antigravity\\scratch\\GreenArb\\telemetry_output.json"

/-- What one iteration reads from outside the program: the hour of the local
time seen by `get_tangedco_carbon_intensity`, the count of milliseconds since
the epoch seen by `main`, and whether `std::ofstream` opens `pipe_path`. -/
structure Surroundings where
  tm_hour : Int
  epoch_ms : Int
  opens : Bool
  deriving DecidableEq

/-- The six locals an iteration computes before it writes. -/
structure Snapshot (K : Type) where
  timestamp : Nat
  power : Nat
  temp : Nat
  vram_bw : Nat
  eff : K
  carbon_intensity : K

/-- What the program owns and what it has emitted: the simulator, the content
of the file at `pipe_path` (`none` when there is no such file), and the lines
written so far to `std::cout` and to `std::cerr`. -/
structure World where
  telemetry : HardwareTelemetrySim
  file : Option String
  cout : List String
  cerr : List String
  deriving DecidableEq

section Loop

variable {K : Type} [LinearOrderedField K] [FloorRing K]

/-- Lines 70 to 76 of `main`: the five signals and the timestamp, an `int64_t`
count converted to `uint64_t`. -/
def take_snapshot (sin cos : K → K) (telemetry : HardwareTelemetrySim) (env : Surroundings) :
    Snapshot K :=
  { power := telemetry.get_simulated_power_draw_watts sin
    temp := telemetry.get_simulated_temperature_c cos
    vram_bw := telemetry.get_simulated_vram_bandwidth_usage cos
    eff := telemetry.get_hbm3e_efficiency sin
    carbon_intensity := telemetry.get_tangedco_carbon_intensity sin env.tm_hour
    timestamp := (env.epoch_ms % (UINT64_MODULUS : Int)).toNat }

/-- The text streamed into `outfile`; `fmt` is `operator<<` for a `double`. -/
def snapshot_json (fmt : K → String) (snap : Snapshot K) : String :=
  "\x7b\n"
    ++ "  \"timestamp\": " ++ toString snap.timestamp ++ ",\n"
    ++ "  \"gpu_power_w\": " ++ toString snap.power ++ ",\n"
    ++ "  \"gpu_temp_c\": " ++ toString snap.temp ++ ",\n"
    ++ "  \"vram_bandwidth_gbs\": " ++ toString snap.vram_bw ++ ",\n"
    ++ "  \"vram_efficiency_pct\": " ++ fmt snap.eff ++ ",\n"
    ++ "  \"carbon_intensity_gCO2_kWh\": " ++ fmt snap.carbon_intensity ++ "\n"
    ++ "\x7d\n"

/-- The line reported on `std::cerr` when the file does not open. -/
def failure_line : String :=
  "Failed to write to telemetry pipe: " ++ pipe_path

/-- The summary line of an iteration on `std::cout`. -/
def summary_line (fmt : K → String) (snap : Snapshot K) : String :=
  "[Telemetry Tick] Output updated. Power: " ++ toString snap.power
    ++ "W, Temp: " ++ toString snap.temp ++ "C, VRAM BW: " ++ toString snap.vram_bw
    ++ "GB/s (" ++ fmt snap.eff ++ "% Eff), Grid: "
    ++ fmt snap.carbon_intensity ++ "gCO2/kWh"

/-- The fixed second line of an iteration on `std::cout`. -/
def burst_line : String :=
  "[Burst Optimization] Clock-Scaling Latency verified at 1.8Î¼s."

/-- One iteration of `while (true)`, the sleep apart: compute the snapshot, open
the file truncating it and write the text or report the failure, print the two
lines, advance the tick. -/
def loop_body (sin cos : K → K) (fmt : K → String) (env : Surroundings) (w : World) : World :=
  let snap := take_snapshot sin cos w.telemetry env
  let w :=
    if env.opens then
      { w with file := some (snapshot_json fmt snap) }
    else
      { w with cerr := w.cerr ++ [failure_line] }
  let w := { w with cout := w.cout ++ [summary_line fmt snap] }
  let w := { w with cout := w.cout ++ [burst_line] }
  { w with telemetry := w.telemetry.advance_tick }

/-- The state of `main` when it enters the loop, the file being as found. -/
def main_start (file : Option String) : World :=
  { telemetry := HardwareTelemetrySim.create 0
    file := file
    cout := ["[ROCm initialized] Tracking device ID: " ++ toString 0,
      "Starting ROCm Hardware-to-Ontology telemetry pipeline..."]
    cerr := [] }

/-- The loop run for as many iterations as `envs` has entries. -/
def run_loop (sin cos : K → K) (fmt : K → String) (envs : List Surroundings) (w : World) :
    World :=
  envs.foldl (fun w env => loop_body sin cos fmt env w) w

end Loop

/-! ## Writing a `double`

`operator<<` for a `double` on a stream with its default flags (no
`floatfield`, precision 6) converts as `printf` does for `%g`: the value is
rounded to six significant decimal digits; with `X` the decimal exponent of the
rounded value, the fixed notation with `5 - X` decimals is used for
`-4 ≤ X < 6` and the scientific notation with five decimals otherwise; trailing
zeros of the fraction are removed, and the point with them when none is left. -/

section Format

variable {K : Type} [LinearOrderedField K] [FloorRing K]

/-- The decimal exponent of `a > 0`: the `X` with `10 ^ X ≤ a < 10 ^ (X + 1)`. -/
def decimal_exponent (a : K) : Int :=
  if 1 ≤ a then (Nat.log 10 (Int.floor a).toNat : Int)
  else -(Nat.clog 10 (Int.ceil a⁻¹).toNat : Int)

/-- The integer nearest to `s ≥ 0`, the even one of two that are equally near. -/
def round_half_even (s : K) : Nat :=
  let r := (Int.floor s).toNat
  if Int.fract s < 1 / 2 then r
  else if 1 / 2 < Int.fract s then r + 1
  else if r % 2 = 0 then r else r + 1

/-- The decimal digits of `n`, with zeros in front up to `width` digits. -/
def pad_digits (width n : Nat) : List Char :=
  List.replicate (width - (Nat.toDigits 10 n).length) '0' ++ Nat.toDigits 10 n

/-- The digits without the zeros at their end. -/
def strip_zeros (ds : List Char) : List Char :=
  (ds.reverse.dropWhile fun c => c = '0').reverse

/-- The fraction `n / 10 ^ width` as text: the point and the digits that remain
once the trailing zeros are removed, or nothing when none remains. -/
def fraction_text (width n : Nat) : List Char :=
  match strip_zeros (pad_digits width n) with
  | [] => []
  | f :: fs => '.' :: f :: fs

/-- The exponent as text: `e`, a sign, and at least two digits. -/
def exponent_text (X : Int) : List Char :=
  'e' :: (if X < 0 then '-' else '+') :: pad_digits 2 X.natAbs

/-- The text of the value `m * 10 ^ (X - 5)` (`m` the six significant digits),
with a minus sign when `negative`. -/
def format_g (negative : Bool) (m : Nat) (X : Int) : List Char :=
  (if negative then ['-'] else []) ++
    if X < -4 ∨ 6 ≤ X then
      Nat.toDigits 10 (m / 100000) ++ (fraction_text 5 (m % 100000) ++ exponent_text X)
    else
      Nat.toDigits 10 (m / 10 ^ (5 - X).toNat)
        ++ fraction_text (5 - X).toNat (m % 10 ^ (5 - X).toNat)

/-- The text `operator<<` writes for the `double` `x`. -/
def format_double (x : K) : String :=
  if x = 0 then "0"
  else
    let m := round_half_even (|x| * (10 : K) ^ (5 - decimal_exponent |x|))
    if m = 1000000 then String.mk (format_g (decide (x < 0)) 100000 (decimal_exponent |x| + 1))
    else String.mk (format_g (decide (x < 0)) m (decimal_exponent |x|))

end Format

/-! ## A recogniser of flat JSON objects

The grammar of RFC 8259 restricted to an object whose member names are strings
without escapes and whose values are numbers. -/

section Conversion

variable {K : Type} [LinearOrderedField K] [FloorRing K]

theorem truncate_le_of_le {x : K} {n : Int} (h : x ≤ n) : truncate x ≤ n := by
  unfold truncate
  split
  · exact Int.cast_le.mp (le_trans (Int.floor_le x) h)
  · exact Int.ceil_le.mpr h

theorem le_truncate_of_le {x : K} {n : Int} (h : (n : K) ≤ x) : n ≤ truncate x := by
  unfold truncate
  split
  · exact Int.le_floor.mpr h
  · exact Int.cast_le.mp (le_trans h (Int.le_ceil x))

/-- Adding a base to the converted term: the two reductions modulo `2 ^ 64`
cancel whenever the mathematical sum is a `uint64_t`. -/
theorem base_add_static_cast (base : Nat) (x : K) (hlo : 0 ≤ (base : Int) + truncate x)
    (hhi : (base : Int) + truncate x < 2 ^ 64) :
    (((base + static_cast_uint64 x) % UINT64_MODULUS : Nat) : Int) = base + truncate x := by
  unfold static_cast_uint64 UINT64_MODULUS
  have hpos : (0 : Int) ≤ truncate x % ((2 ^ 64 : Nat) : Int) :=
    Int.emod_nonneg _ (by norm_num)
  push_cast
  rw [Int.toNat_of_nonneg (by simpa using hpos)]
  rw [Int.add_emod_emod]
  exact Int.emod_eq_of_lt hlo hhi

/-- The conversion at a negative term: `-12.5` is truncated to `-12` and taken
modulo `2 ^ 64`, and adding the base `300` in `uint64_t` gives `288`. -/
theorem static_cast_negative_example :
    static_cast_uint64 (-(25 : ℚ) / 2) = 18446744073709551604
      ∧ (300 + static_cast_uint64 (-(25 : ℚ) / 2)) % UINT64_MODULUS = 288 := by
  have h : truncate (-(25 : ℚ) / 2) = -12 := by
    have hneg : ¬ (0 : ℚ) ≤ -(25 : ℚ) / 2 := by norm_num
    simp only [truncate, if_neg hneg]
    rw [Int.ceil_eq_iff]
    constructor <;> norm_num
  simp [static_cast_uint64, h, UINT64_MODULUS]

end Conversion

/-! ## The integer signals over the reals -/

section RealSignals

/-- The oscillating term `amp * y` with `-1 ≤ y ≤ 1` truncates into `[-amp, amp]`,
and adding it to a base `base ≥ amp` in `uint64_t` gives the mathematical sum. -/
theorem signal_value (base amp : Nat) (x y : ℝ) (hx : x = (amp : ℝ) * y)
    (hlo : -1 ≤ y) (hhi : y ≤ 1) (hb : amp ≤ base) (hmax : base + amp < 2 ^ 64) :
    (((base + static_cast_uint64 x) % UINT64_MODULUS : Nat) : Int) = base + truncate x
      ∧ -(amp : Int) ≤ truncate x ∧ truncate x ≤ (amp : Int) := by
  have ha : (0 : ℝ) ≤ (amp : ℝ) := Nat.cast_nonneg amp
  have h1 : ((-(amp : Int) : Int) : ℝ) ≤ x := by
    push_cast
    rw [hx]
    nlinarith
  have h2 : x ≤ (((amp : Int)) : ℝ) := by
    push_cast
    rw [hx]
    nlinarith
  have t1 := le_truncate_of_le h1
  have t2 := truncate_le_of_le h2
  refine ⟨base_add_static_cast base x ?_ ?_, t1, t2⟩
  · have : (amp : Int) ≤ base := by exact_mod_cast hb
    linarith
  · have : ((base : Int) + amp) < 2 ^ 64 := by exact_mod_cast hmax
    linarith

/-- The power draw as an integer: `300` plus the truncated term, within `±50`. -/
theorem power_value (self : HardwareTelemetrySim) :
    ((get_simulated_power_draw_watts Real.sin self : Nat) : Int)
        = 300 + truncate (50.0 * Real.sin ((self.tick : ℝ) * 0.5))
      ∧ -50 ≤ truncate (50.0 * Real.sin ((self.tick : ℝ) * 0.5))
      ∧ truncate (50.0 * Real.sin ((self.tick : ℝ) * 0.5)) ≤ 50 := by
  have h := signal_value 300 50 (50.0 * Real.sin ((self.tick : ℝ) * 0.5))
    (Real.sin ((self.tick : ℝ) * 0.5)) (by norm_num) (Real.neg_one_le_sin _)
    (Real.sin_le_one _) (by norm_num) (by norm_num)
  simpa [get_simulated_power_draw_watts] using h

/-- The temperature as an integer: `65` plus the truncated term, within `±10`. -/
theorem temperature_value (self : HardwareTelemetrySim) :
    ((get_simulated_temperature_c Real.cos self : Nat) : Int)
        = 65 + truncate (10.0 * Real.cos ((self.tick : ℝ) * 0.3))
      ∧ -10 ≤ truncate (10.0 * Real.cos ((self.tick : ℝ) * 0.3))
      ∧ truncate (10.0 * Real.cos ((self.tick : ℝ) * 0.3)) ≤ 10 := by
  have h := signal_value 65 10 (10.0 * Real.cos ((self.tick : ℝ) * 0.3))
    (Real.cos ((self.tick : ℝ) * 0.3)) (by norm_num) (Real.neg_one_le_cos _)
    (Real.cos_le_one _) (by norm_num) (by norm_num)
  simpa [get_simulated_temperature_c] using h

/-- The bandwidth as an integer: `1500` plus the truncated term, within `±200`. -/
theorem bandwidth_value (self : HardwareTelemetrySim) :
    ((get_simulated_vram_bandwidth_usage Real.cos self : Nat) : Int)
        = 1500 + truncate (200.0 * Real.cos ((self.tick : ℝ) * 0.2))
      ∧ -200 ≤ truncate (200.0 * Real.cos ((self.tick : ℝ) * 0.2))
      ∧ truncate (200.0 * Real.cos ((self.tick : ℝ) * 0.2)) ≤ 200 := by
  have h := signal_value 1500 200 (200.0 * Real.cos ((self.tick : ℝ) * 0.2))
    (Real.cos ((self.tick : ℝ) * 0.2)) (by norm_num) (Real.neg_one_le_cos _)
    (Real.cos_le_one _) (by norm_num) (by norm_num)
  simpa [get_simulated_vram_bandwidth_usage] using h

end RealSignals

/-! ## Claims about the generator -/

/-- C1: at every tick the power draw is in `[250, 350]`, the temperature in
`[55, 75]`, the VRAM bandwidth in `[1300, 1700]` and the HBM3e efficiency in
`[98.7, 99.9]`; the tick is arbitrary, so this covers the ticks at which the
sine or cosine term is negative when it is converted to `uint64_t`. -/
theorem C1_signal_ranges (self : HardwareTelemetrySim) :
    (250 ≤ get_simulated_power_draw_watts Real.sin self
        ∧ get_simulated_power_draw_watts Real.sin self ≤ 350)
      ∧ (55 ≤ get_simulated_temperature_c Real.cos self
        ∧ get_simulated_temperature_c Real.cos self ≤ 75)
      ∧ (1300 ≤ get_simulated_vram_bandwidth_usage Real.cos self
        ∧ get_simulated_vram_bandwidth_usage Real.cos self ≤ 1700)
      ∧ ((98.7 : ℝ) ≤ get_hbm3e_efficiency Real.sin self
        ∧ get_hbm3e_efficiency Real.sin self ≤ (99.9 : ℝ)) := by
  obtain ⟨hp, hp1, hp2⟩ := power_value self
  obtain ⟨ht, ht1, ht2⟩ := temperature_value self
  obtain ⟨hb, hb1, hb2⟩ := bandwidth_value self
  refine ⟨⟨?_, ?_⟩, ⟨?_, ?_⟩, ⟨?_, ?_⟩, ?_, ?_⟩
  · omega
  · omega
  · omega
  · omega
  · omega
  · omega
  · have h0 := abs_nonneg (Real.sin ((self.tick : ℝ) * 0.05))
    have e1 : (1.2 : ℝ) = 12 / 10 := by norm_num
    unfold get_hbm3e_efficiency
    rw [e1]
    linarith
  · have h1 := Real.abs_sin_le_one ((self.tick : ℝ) * 0.05)
    have e1 : (1.2 : ℝ) = 12 / 10 := by norm_num
    have e2 : (98.7 : ℝ) = 987 / 10 := by norm_num
    have e3 : (99.9 : ℝ) = 999 / 10 := by norm_num
    unfold get_hbm3e_efficiency
    rw [e1, e2, e3]
    linarith

/-- C3: on a freshly constructed simulator (tick `0`) the power draw is `300`,
the temperature `75`, the VRAM bandwidth `1700` and the efficiency `98.7`. -/
theorem C3_initial_signals (dev_idx : Nat) :
    (create dev_idx).tick = 0
      ∧ get_simulated_power_draw_watts Real.sin (create dev_idx) = 300
      ∧ get_simulated_temperature_c Real.cos (create dev_idx) = 75
      ∧ get_simulated_vram_bandwidth_usage Real.cos (create dev_idx) = 1700
      ∧ get_hbm3e_efficiency Real.sin (create dev_idx) = (98.7 : ℝ) := by
  have e10 : truncate (10.0 : ℝ) = 10 := by
    have : (10.0 : ℝ) = ((10 : Int) : ℝ) := by norm_num
    rw [this]
    simp [truncate]
  have e200 : truncate (200.0 : ℝ) = 200 := by
    have : (200.0 : ℝ) = ((200 : Int) : ℝ) := by norm_num
    rw [this]
    simp [truncate]
  have e0 : truncate (0 : ℝ) = 0 := by simp [truncate]
  refine ⟨rfl, ?_, ?_, ?_, ?_⟩
  · simp [get_simulated_power_draw_watts, create, static_cast_uint64, e0, UINT64_MODULUS]
  · simp [get_simulated_temperature_c, create, static_cast_uint64, e10, UINT64_MODULUS]
  · simp [get_simulated_vram_bandwidth_usage, create, static_cast_uint64, e200,
      UINT64_MODULUS]
  · simp [get_hbm3e_efficiency, create]

section Carbon

variable {K : Type} [LinearOrderedField K]

/-- The evening branch of `get_tangedco_carbon_intensity`. -/
theorem carbon_evening (initial : K) (sin : K → K) (self : HardwareTelemetrySim) (h : Int)
    (hh : 18 ≤ h ∧ h ≤ 22) :
    tangedco_carbon_intensity_from initial sin h self
      = 650 + 50 * sin (0.1 * (self.tick : K)) := by
  have e : (650.0 : K) = 650 ∧ (50.0 : K) = 50 := by norm_num
  simp [tangedco_carbon_intensity_from, Id.run, hh.1, hh.2, e.1, e.2, mul_comm]

/-- The daytime branch of `get_tangedco_carbon_intensity`. -/
theorem carbon_daytime (initial : K) (sin : K → K) (self : HardwareTelemetrySim) (h : Int)
    (hh : 10 ≤ h ∧ h ≤ 16) :
    tangedco_carbon_intensity_from initial sin h self
      = 350 + 30 * sin (0.1 * (self.tick : K)) := by
  have e : (350.0 : K) = 350 ∧ (30.0 : K) = 30 := by norm_num
  have h18 : ¬ (18 ≤ h) := by omega
  simp [tangedco_carbon_intensity_from, Id.run, hh.1, hh.2, h18, e.1, e.2, mul_comm]

/-- The last branch of `get_tangedco_carbon_intensity`. -/
theorem carbon_otherwise (initial : K) (sin : K → K) (self : HardwareTelemetrySim) (h : Int)
    (h1 : ¬ (18 ≤ h ∧ h ≤ 22)) (h2 : ¬ (10 ≤ h ∧ h ≤ 16)) :
    tangedco_carbon_intensity_from initial sin h self
      = 450 + 40 * sin (0.1 * (self.tick : K)) := by
  have e : (450.0 : K) = 450 ∧ (40.0 : K) = 40 := by norm_num
  unfold tangedco_carbon_intensity_from
  simp only [ge_iff_le, Id.run, Id.pure_eq, Id.bind_eq]
  rw [if_neg h1, if_neg h2, e.1, e.2, mul_comm (self.tick : K)]

end Carbon

/-- C2: for every hour and tick `get_tangedco_carbon_intensity` is
`650 + 50 * sin (0.1 * t)` for `18 ≤ h ≤ 22`, `350 + 30 * sin (0.1 * t)` for
`10 ≤ h ≤ 16` and `450 + 40 * sin (0.1 * t)` for every other hour; so hour 19
has base 650 and amplitude 50, hour 12 base 350 and amplitude 30, and the hours
3, 17, 9, 23 and 0 base 450 and amplitude 40. -/
theorem C2_carbon_intensity_selection {K : Type} [LinearOrderedField K]
    (sin : K → K) (self : HardwareTelemetrySim) (h : Int) :
    ((18 ≤ h ∧ h ≤ 22) → get_tangedco_carbon_intensity sin h self
        = 650 + 50 * sin (0.1 * (self.tick : K)))
      ∧ ((10 ≤ h ∧ h ≤ 16) → get_tangedco_carbon_intensity sin h self
        = 350 + 30 * sin (0.1 * (self.tick : K)))
      ∧ (¬ (18 ≤ h ∧ h ≤ 22) → ¬ (10 ≤ h ∧ h ≤ 16) →
        get_tangedco_carbon_intensity sin h self = 450 + 40 * sin (0.1 * (self.tick : K)))
      ∧ get_tangedco_carbon_intensity sin 19 self = 650 + 50 * sin (0.1 * (self.tick : K))
      ∧ get_tangedco_carbon_intensity sin 12 self = 350 + 30 * sin (0.1 * (self.tick : K))
      ∧ get_tangedco_carbon_intensity sin 3 self = 450 + 40 * sin (0.1 * (self.tick : K))
      ∧ get_tangedco_carbon_intensity sin 17 self = 450 + 40 * sin (0.1 * (self.tick : K))
      ∧ get_tangedco_carbon_intensity sin 9 self = 450 + 40 * sin (0.1 * (self.tick : K))
      ∧ get_tangedco_carbon_intensity sin 23 self = 450 + 40 * sin (0.1 * (self.tick : K))
      ∧ get_tangedco_carbon_intensity sin 0 self
        = 450 + 40 * sin (0.1 * (self.tick : K)) := by
  unfold get_tangedco_carbon_intensity
  refine ⟨carbon_evening _ sin self h, carbon_daytime _ sin self h,
    carbon_otherwise _ sin self h, carbon_evening _ sin self 19 (by omega),
    carbon_daytime _ sin self 12 (by omega), carbon_otherwise _ sin self 3 (by omega) (by omega),
    carbon_otherwise _ sin self 17 (by omega) (by omega),
    carbon_otherwise _ sin self 9 (by omega) (by omega),
    carbon_otherwise _ sin self 23 (by omega) (by omega),
    carbon_otherwise _ sin self 0 (by omega) (by omega)⟩

/-- C2 at hour `20` and tick `3`, over the rationals with `sin x = x / 100`. -/
theorem C2_carbon_intensity_selection_witness :
    get_tangedco_carbon_intensity (fun x : ℚ => x / 100) 20 { device_index := 0, tick := 3 }
      = 650 + 50 * ((fun x : ℚ => x / 100) (0.1 * (((3 : Int)) : ℚ))) :=
  (C2_carbon_intensity_selection (fun x : ℚ => x / 100) { device_index := 0, tick := 3 } 20).1
    (by decide)

/-- C9: the carbon intensity is in `[600, 700]` for `18 ≤ h ≤ 22`, in
`[320, 380]` for `10 ≤ h ≤ 16` and in `[410, 490]` for every other hour, hence
always in `[320, 700]`; and the result is the same whatever value the local
variable `intensity` is given at its declaration, so `420.0` never decides it. -/
theorem C9_carbon_intensity_ranges (self : HardwareTelemetrySim) (h : Int) :
    ((18 ≤ h ∧ h ≤ 22) → 600 ≤ get_tangedco_carbon_intensity Real.sin h self
        ∧ get_tangedco_carbon_intensity Real.sin h self ≤ 700)
      ∧ ((10 ≤ h ∧ h ≤ 16) → 320 ≤ get_tangedco_carbon_intensity Real.sin h self
        ∧ get_tangedco_carbon_intensity Real.sin h self ≤ 380)
      ∧ (¬ (18 ≤ h ∧ h ≤ 22) → ¬ (10 ≤ h ∧ h ≤ 16) →
        410 ≤ get_tangedco_carbon_intensity Real.sin h self
        ∧ get_tangedco_carbon_intensity Real.sin h self ≤ 490)
      ∧ (320 ≤ get_tangedco_carbon_intensity Real.sin h self
        ∧ get_tangedco_carbon_intensity Real.sin h self ≤ 700)
      ∧ ∀ initial : ℝ, tangedco_carbon_intensity_from initial Real.sin h self
        = get_tangedco_carbon_intensity Real.sin h self := by
  have s1 := Real.neg_one_le_sin (0.1 * (self.tick : ℝ))
  have s2 := Real.sin_le_one (0.1 * (self.tick : ℝ))
  unfold get_tangedco_carbon_intensity
  have ev : (18 ≤ h ∧ h ≤ 22) → ∀ i : ℝ,
      600 ≤ tangedco_carbon_intensity_from i Real.sin h self
        ∧ tangedco_carbon_intensity_from i Real.sin h self ≤ 700 := by
    intro hh i
    rw [carbon_evening i Real.sin self h hh]
    constructor <;> linarith
  have dy : (10 ≤ h ∧ h ≤ 16) → ∀ i : ℝ,
      320 ≤ tangedco_carbon_intensity_from i Real.sin h self
        ∧ tangedco_carbon_intensity_from i Real.sin h self ≤ 380 := by
    intro hh i
    rw [carbon_daytime i Real.sin self h hh]
    constructor <;> linarith
  have ot : ¬ (18 ≤ h ∧ h ≤ 22) → ¬ (10 ≤ h ∧ h ≤ 16) → ∀ i : ℝ,
      410 ≤ tangedco_carbon_intensity_from i Real.sin h self
        ∧ tangedco_carbon_intensity_from i Real.sin h self ≤ 490 := by
    intro h1 h2 i
    rw [carbon_otherwise i Real.sin self h h1 h2]
    constructor <;> linarith
  refine ⟨fun hh => ev hh _, fun hh => dy hh _, fun h1 h2 => ot h1 h2 _, ?_, ?_⟩
  · by_cases h1 : 18 ≤ h ∧ h ≤ 22
    · have := ev h1 420.0
      constructor <;> linarith [this.1, this.2]
    · by_cases h2 : 10 ≤ h ∧ h ≤ 16
      · have := dy h2 420.0
        constructor <;> linarith [this.1, this.2]
      · have := ot h1 h2 420.0
        constructor <;> linarith [this.1, this.2]
  · intro i
    by_cases h1 : 18 ≤ h ∧ h ≤ 22
    · rw [carbon_evening i Real.sin self h h1, carbon_evening _ Real.sin self h h1]
    · by_cases h2 : 10 ≤ h ∧ h ≤ 16
      · rw [carbon_daytime i Real.sin self h h2, carbon_daytime _ Real.sin self h h2]
      · rw [carbon_otherwise i Real.sin self h h1 h2, carbon_otherwise _ Real.sin self h h1 h2]

/-- C9 at hour `12` and tick `3`. -/
theorem C9_carbon_intensity_ranges_witness :
    320 ≤ get_tangedco_carbon_intensity Real.sin 12 { device_index := 0, tick := 3 }
      ∧ get_tangedco_carbon_intensity Real.sin 12 { device_index := 0, tick := 3 } ≤ 380 :=
  (C9_carbon_intensity_ranges { device_index := 0, tick := 3 } 12).2.1 (by decide)

/-! ## The loop: tick, streams and file -/

section LoopFacts

variable {K : Type} [LinearOrderedField K] [FloorRing K]

@[simp] theorem loop_body_telemetry (sin cos : K → K) (fmt : K → String) (env : Surroundings)
    (w : World) : (loop_body sin cos fmt env w).telemetry = w.telemetry.advance_tick := by
  unfold loop_body
  split <;> rfl

@[simp] theorem loop_body_cout (sin cos : K → K) (fmt : K → String) (env : Surroundings)
    (w : World) : (loop_body sin cos fmt env w).cout
      = w.cout ++ [summary_line fmt (take_snapshot sin cos w.telemetry env), burst_line] := by
  unfold loop_body
  split <;> simp

theorem loop_body_cerr (sin cos : K → K) (fmt : K → String) (env : Surroundings)
    (w : World) : (loop_body sin cos fmt env w).cerr
      = if env.opens then w.cerr else w.cerr ++ [failure_line] := by
  unfold loop_body
  split <;> rfl

theorem loop_body_file (sin cos : K → K) (fmt : K → String) (env : Surroundings)
    (w : World) : (loop_body sin cos fmt env w).file
      = if env.opens then some (snapshot_json fmt (take_snapshot sin cos w.telemetry env))
        else w.file := by
  unfold loop_body
  split <;> rfl

theorem run_loop_nil (sin cos : K → K) (fmt : K → String) (w : World) :
    run_loop sin cos fmt [] w = w := rfl

theorem run_loop_cons (sin cos : K → K) (fmt : K → String) (env : Surroundings)
    (envs : List Surroundings) (w : World) :
    run_loop sin cos fmt (env :: envs) w
      = run_loop sin cos fmt envs (loop_body sin cos fmt env w) := rfl

theorem wrap_int_of_range (t : Int) (h1 : INT_MIN ≤ t) (h2 : t ≤ INT_MAX) : wrap_int t = t := by
  unfold wrap_int
  unfold INT_MIN at h1
  unfold INT_MAX at h2
  omega

theorem wrap_int_succ (t n : Int) : wrap_int (wrap_int (t + 1) + n) = wrap_int (t + (n + 1)) := by
  unfold wrap_int
  omega

/-- The tick after a run is the number of iterations added to the tick before
it, reduced to the range of `int`. -/
theorem run_loop_tick (sin cos : K → K) (fmt : K → String) (envs : List Surroundings) :
    ∀ w : World, INT_MIN ≤ w.telemetry.tick → w.telemetry.tick ≤ INT_MAX →
      (run_loop sin cos fmt envs w).telemetry.tick
        = wrap_int (w.telemetry.tick + (envs.length : Int)) := by
  induction envs with
  | nil =>
    intro w h1 h2
    simp [run_loop_nil, wrap_int_of_range _ h1 h2]
  | cons env envs ih =>
    intro w h1 h2
    rw [run_loop_cons, ih]
    · simp only [loop_body_telemetry, advance_tick, List.length_cons, Nat.cast_add, Nat.cast_one]
      exact wrap_int_succ _ _
    · simp only [loop_body_telemetry, advance_tick, wrap_int, INT_MIN]
      omega
    · simp only [loop_body_telemetry, advance_tick, wrap_int, INT_MAX]
      omega

theorem run_loop_device_index (sin cos : K → K) (fmt : K → String)
    (envs : List Surroundings) :
    ∀ w : World, (run_loop sin cos fmt envs w).telemetry.device_index
      = w.telemetry.device_index := by
  induction envs with
  | nil => intro w; rfl
  | cons env envs ih =>
    intro w
    rw [run_loop_cons, ih]
    simp [advance_tick]

/-- An iteration added at the end of a run. -/
theorem run_loop_concat (sin cos : K → K) (fmt : K → String) (envs : List Surroundings)
    (env : Surroundings) (w : World) :
    run_loop sin cos fmt (envs ++ [env]) w
      = loop_body sin cos fmt env (run_loop sin cos fmt envs w) := by
  simp [run_loop, List.foldl_append]

theorem take_succ_eq_concat (envs : List Surroundings) :
    ∀ (k : Nat) (hk : k < envs.length), envs.take (k + 1) = envs.take k ++ [envs.get ⟨k, hk⟩] := by
  induction envs with
  | nil => intro k hk; exact absurd hk (Nat.not_lt_zero k)
  | cons e es ih =>
    intro k hk
    cases k with
    | zero => rfl
    | succ k =>
      have hk' : k < es.length := Nat.lt_of_succ_lt_succ hk
      simp only [List.take_succ_cons, List.cons_append, List.get_cons_succ]
      rw [ih k hk']

/-- The run of `k + 1` iterations is the iteration numbered `k` after the run of `k`. -/
theorem run_loop_take_succ (sin cos : K → K) (fmt : K → String) (envs : List Surroundings)
    (w : World) (k : Nat) (hk : k < envs.length) :
    run_loop sin cos fmt (envs.take (k + 1)) w
      = loop_body sin cos fmt (envs.get ⟨k, hk⟩) (run_loop sin cos fmt (envs.take k) w) := by
  rw [take_succ_eq_concat envs k hk, run_loop_concat]

end LoopFacts

/-- C5, as stated, fails: the counter is an `int`, and after `2 ^ 31` iterations
from the start it is not `2 ^ 31`. -/
theorem C5_counterexample :
    (run_loop (fun _ : ℚ => 0) (fun _ : ℚ => 1) (fun _ : ℚ => "0")
        (List.replicate 2147483648 { tm_hour := 0, epoch_ms := 0, opens := false })
        (main_start none)).telemetry.tick ≠ 2147483648 := by
  have h1 : INT_MIN ≤ (main_start none).telemetry.tick := by
    simp [main_start, create, INT_MIN]
  have h2 : (main_start none).telemetry.tick ≤ INT_MAX := by
    simp [main_start, create, INT_MAX]
  have h := run_loop_tick (fun _ : ℚ => 0) (fun _ : ℚ => 1) (fun _ : ℚ => "0")
    (List.replicate 2147483648 { tm_hour := 0, epoch_ms := 0, opens := false })
    (main_start none) h1 h2
  have h0 : (main_start none).telemetry.tick = 0 := rfl
  rw [List.length_replicate, h0] at h
  rw [h]
  unfold wrap_int
  omega

/-- C5, amended: the tick is `0` at the start; an iteration replaces the
simulator by `advance_tick` of it and nothing else, which adds exactly `1` to a
tick below `INT_MAX`; so after `N ≤ INT_MAX` iterations the tick is `N`, and the
iteration numbered `k` starts from tick `k` and what it writes (the summary line
on `std::cout`, the text of the file when it opens) holds the signals of the
generator at tick `k`. -/
theorem C5_tick_counts_iterations {K : Type} [LinearOrderedField K] [FloorRing K]
    (sin cos : K → K) (fmt : K → String) (file : Option String) (envs : List Surroundings)
    (hN : (envs.length : Int) ≤ INT_MAX) :
    (main_start file).telemetry.tick = 0
      ∧ (∀ (env : Surroundings) (w : World),
          (loop_body sin cos fmt env w).telemetry = w.telemetry.advance_tick
          ∧ (w.telemetry.tick < INT_MAX → INT_MIN ≤ w.telemetry.tick →
            (loop_body sin cos fmt env w).telemetry.tick = w.telemetry.tick + 1))
      ∧ (run_loop sin cos fmt envs (main_start file)).telemetry.tick = (envs.length : Int)
      ∧ ∀ (k : Nat) (hk : k < envs.length),
          (run_loop sin cos fmt (envs.take k) (main_start file)).telemetry
            = { device_index := 0, tick := (k : Int) }
          ∧ take_snapshot sin cos
              (run_loop sin cos fmt (envs.take k) (main_start file)).telemetry
              (envs.get ⟨k, hk⟩)
            = take_snapshot sin cos { device_index := 0, tick := (k : Int) }
              (envs.get ⟨k, hk⟩)
          ∧ run_loop sin cos fmt (envs.take (k + 1)) (main_start file)
            = loop_body sin cos fmt (envs.get ⟨k, hk⟩)
              (run_loop sin cos fmt (envs.take k) (main_start file))
          ∧ (run_loop sin cos fmt (envs.take (k + 1)) (main_start file)).cout
            = (run_loop sin cos fmt (envs.take k) (main_start file)).cout
              ++ [summary_line fmt
                  { timestamp := ((envs.get ⟨k, hk⟩).epoch_ms % (UINT64_MODULUS : Int)).toNat
                    power := get_simulated_power_draw_watts sin
                      { device_index := 0, tick := (k : Int) }
                    temp := get_simulated_temperature_c cos
                      { device_index := 0, tick := (k : Int) }
                    vram_bw := get_simulated_vram_bandwidth_usage cos
                      { device_index := 0, tick := (k : Int) }
                    eff := get_hbm3e_efficiency sin { device_index := 0, tick := (k : Int) }
                    carbon_intensity := get_tangedco_carbon_intensity sin
                      (envs.get ⟨k, hk⟩).tm_hour { device_index := 0, tick := (k : Int) } },
                burst_line]
          ∧ (run_loop sin cos fmt (envs.take (k + 1)) (main_start file)).file
            = if (envs.get ⟨k, hk⟩).opens then
                some (snapshot_json fmt
                  { timestamp := ((envs.get ⟨k, hk⟩).epoch_ms % (UINT64_MODULUS : Int)).toNat
                    power := get_simulated_power_draw_watts sin
                      { device_index := 0, tick := (k : Int) }
                    temp := get_simulated_temperature_c cos
                      { device_index := 0, tick := (k : Int) }
                    vram_bw := get_simulated_vram_bandwidth_usage cos
                      { device_index := 0, tick := (k : Int) }
                    eff := get_hbm3e_efficiency sin { device_index := 0, tick := (k : Int) }
                    carbon_intensity := get_tangedco_carbon_intensity sin
                      (envs.get ⟨k, hk⟩).tm_hour { device_index := 0, tick := (k : Int) } })
              else (run_loop sin cos fmt (envs.take k) (main_start file)).file := by
  have start_lo : INT_MIN ≤ (main_start file).telemetry.tick := by
    simp [main_start, create, INT_MIN]
  have start_hi : (main_start file).telemetry.tick ≤ INT_MAX := by
    simp [main_start, create, INT_MAX]
  have prefix_state : ∀ es : List Surroundings, (es.length : Int) ≤ INT_MAX →
      (run_loop sin cos fmt es (main_start file)).telemetry
        = { device_index := 0, tick := (es.length : Int) } := by
    intro es hes
    have h1 := run_loop_tick sin cos fmt es (main_start file) start_lo start_hi
    have h2 := run_loop_device_index sin cos fmt es (main_start file)
    have h3 : wrap_int ((main_start file).telemetry.tick + (es.length : Int))
        = (es.length : Int) := by
      have : (main_start file).telemetry.tick = 0 := rfl
      rw [this, zero_add]
      apply wrap_int_of_range
      · unfold INT_MIN
        omega
      · exact hes
    rw [h3] at h1
    have h4 : (main_start file).telemetry.device_index = 0 := rfl
    rw [h4] at h2
    cases hrun : (run_loop sin cos fmt es (main_start file)).telemetry with
    | mk d t =>
      rw [hrun] at h1 h2
      simp only at h1 h2
      rw [h1, h2]
  refine ⟨rfl, ?_, ?_, ?_⟩
  · intro env w
    refine ⟨loop_body_telemetry sin cos fmt env w, fun h1 h2 => ?_⟩
    rw [loop_body_telemetry]
    exact wrap_int_of_range _ (by unfold INT_MIN at *; omega) (by unfold INT_MAX at *; omega)
  · rw [prefix_state envs hN]
  · intro k hk
    have hlen : (envs.take k).length = k := by
      rw [List.length_take]
      omega
    have hst := prefix_state (envs.take k) (by rw [hlen]; unfold INT_MAX at *; omega)
    rw [hlen] at hst
    have hstep := run_loop_take_succ sin cos fmt envs (main_start file) k hk
    refine ⟨hst, ?_, hstep, ?_, ?_⟩
    · rw [hst]
    · rw [hstep, loop_body_cout, hst]
      rfl
    · rw [hstep, loop_body_file, hst]
      rfl

/-- C5 at two iterations from the start of `main`, the first with the file
opening and the second not: the tick ends at `2`, the iteration numbered `1`
starts from tick `1`, and its summary line holds the signals of tick `1`. -/
theorem C5_tick_counts_iterations_witness :
    (run_loop Real.sin Real.cos format_double
        [{ tm_hour := 19, epoch_ms := 0, opens := true },
          { tm_hour := 3, epoch_ms := 500, opens := false }]
        (main_start none)).telemetry.tick = 2
      ∧ (run_loop Real.sin Real.cos format_double
        [{ tm_hour := 19, epoch_ms := 0, opens := true }]
        (main_start none)).telemetry = { device_index := 0, tick := 1 }
      ∧ (run_loop Real.sin Real.cos format_double
        [{ tm_hour := 19, epoch_ms := 0, opens := true },
          { tm_hour := 3, epoch_ms := 500, opens := false }]
        (main_start none)).cout
        = (run_loop Real.sin Real.cos format_double
            [{ tm_hour := 19, epoch_ms := 0, opens := true }] (main_start none)).cout
          ++ [summary_line format_double
              { timestamp := ((500 : Int) % (UINT64_MODULUS : Int)).toNat
                power := get_simulated_power_draw_watts Real.sin { device_index := 0, tick := 1 }
                temp := get_simulated_temperature_c Real.cos { device_index := 0, tick := 1 }
                vram_bw := get_simulated_vram_bandwidth_usage Real.cos
                  { device_index := 0, tick := 1 }
                eff := get_hbm3e_efficiency Real.sin { device_index := 0, tick := 1 }
                carbon_intensity := get_tangedco_carbon_intensity Real.sin 3
                  { device_index := 0, tick := 1 } },
            burst_line] :=
  have h := C5_tick_counts_iterations Real.sin Real.cos format_double none
    [{ tm_hour := 19, epoch_ms := 0, opens := true },
      { tm_hour := 3, epoch_ms := 500, opens := false }]
    (by simp [INT_MAX])
  ⟨h.2.2.1, (h.2.2.2 1 (by decide)).1, (h.2.2.2 1 (by decide)).2.2.2.1⟩

/-! ## The decimal text of a `uint64_t` is a JSON number -/

section Eval

variable {K : Type} [LinearOrderedField K] [FloorRing K]

end Eval

/-- C7, as stated, fails at one tick: the counter is an `int`, and an iteration
whose open fails at tick `INT_MAX` does not leave the tick one higher. -/
theorem C7_counterexample :
    (loop_body (fun _ : ℚ => 0) (fun _ : ℚ => 1) (fun _ : ℚ => "0")
        { tm_hour := 0, epoch_ms := 0, opens := false }
        { telemetry := { device_index := 0, tick := 2147483647 }, file := none,
          cout := [], cerr := [] }).telemetry.tick ≠ 2147483647 + 1 := by
  simp [advance_tick, wrap_int]

/-- C7, amended: an iteration whose open fails leaves the file as it was and
adds to `std::cerr` exactly one line, which contains `pipe_path`; an iteration
whose open succeeds adds nothing to `std::cerr`; either way the summary line and
the fixed line are added to `std::cout` and the simulator is advanced once, which
adds exactly `1` to a tick below `INT_MAX`.  Two iterations in a row with a
failing open add two such lines and, from a tick below `INT_MAX - 1`, `2` to the
tick. -/
theorem C7_open_failure_is_not_fatal {K : Type} [LinearOrderedField K] [FloorRing K]
    (sin cos : K → K) (fmt : K → String) (env env' : Surroundings) (w : World) :
    (env.opens = false →
        (loop_body sin cos fmt env w).file = w.file
        ∧ (loop_body sin cos fmt env w).cerr = w.cerr ++ [failure_line]
        ∧ List.IsInfix pipe_path.data failure_line.data)
      ∧ (env.opens = true → (loop_body sin cos fmt env w).cerr = w.cerr)
      ∧ (loop_body sin cos fmt env w).cout
        = w.cout ++ [summary_line fmt (take_snapshot sin cos w.telemetry env), burst_line]
      ∧ (loop_body sin cos fmt env w).telemetry = w.telemetry.advance_tick
      ∧ (INT_MIN ≤ w.telemetry.tick → w.telemetry.tick < INT_MAX →
        (loop_body sin cos fmt env w).telemetry.tick = w.telemetry.tick + 1)
      ∧ (env.opens = false → env'.opens = false →
        (run_loop sin cos fmt [env, env'] w).cerr = w.cerr ++ [failure_line, failure_line]
        ∧ (run_loop sin cos fmt [env, env'] w).file = w.file
        ∧ (INT_MIN ≤ w.telemetry.tick → w.telemetry.tick + 1 < INT_MAX →
          (run_loop sin cos fmt [env, env'] w).telemetry.tick = w.telemetry.tick + 2)) := by
  refine ⟨fun h => ⟨?_, ?_, ?_⟩, fun h => ?_, loop_body_cout sin cos fmt env w,
    loop_body_telemetry sin cos fmt env w, fun h1 h2 => ?_, fun h h' => ⟨?_, ?_, fun h1 h2 => ?_⟩⟩
  · rw [loop_body_file, h]
    rfl
  · rw [loop_body_cerr, h]
    rfl
  · exact ⟨"Failed to write to telemetry pipe: ".data, [], by simp [failure_line]⟩
  · rw [loop_body_cerr, h]
    rfl
  · rw [loop_body_telemetry]
    exact wrap_int_of_range _ (by unfold INT_MIN at *; omega) (by unfold INT_MAX at *; omega)
  · rw [run_loop_cons, run_loop_cons, run_loop_nil, loop_body_cerr, loop_body_cerr, h, h']
    simp
  · rw [run_loop_cons, run_loop_cons, run_loop_nil, loop_body_file, loop_body_file, h, h']
    rfl
  · rw [run_loop_cons, run_loop_cons, run_loop_nil, loop_body_telemetry, loop_body_telemetry]
    simp only [advance_tick, wrap_int]
    unfold INT_MIN at h1
    unfold INT_MAX at h2
    omega

/-- C7 at the first two iterations, neither of which can open the file: two
lines on `std::cerr`, the file as it was, the tick at `2`. -/
theorem C7_open_failure_is_not_fatal_witness :
    (run_loop (fun _ : ℚ => 0) (fun _ : ℚ => 1) (fun _ : ℚ => "0")
        [{ tm_hour := 19, epoch_ms := 0, opens := false },
          { tm_hour := 19, epoch_ms := 500, opens := false }]
        (main_start (some "stale"))).cerr
        = (main_start (some "stale")).cerr ++ [failure_line, failure_line]
      ∧ (run_loop (fun _ : ℚ => 0) (fun _ : ℚ => 1) (fun _ : ℚ => "0")
        [{ tm_hour := 19, epoch_ms := 0, opens := false },
          { tm_hour := 19, epoch_ms := 500, opens := false }]
        (main_start (some "stale"))).file = (main_start (some "stale")).file
      ∧ (run_loop (fun _ : ℚ => 0) (fun _ : ℚ => 1) (fun _ : ℚ => "0")
        [{ tm_hour := 19, epoch_ms := 0, opens := false },
          { tm_hour := 19, epoch_ms := 500, opens := false }]
        (main_start (some "stale"))).telemetry.tick
        = (main_start (some "stale")).telemetry.tick + 2 :=
  have h := (C7_open_failure_is_not_fatal (fun _ : ℚ => 0) (fun _ : ℚ => 1) (fun _ : ℚ => "0")
    { tm_hour := 19, epoch_ms := 0, opens := false }
    { tm_hour := 19, epoch_ms := 500, opens := false }
    (main_start (some "stale"))).2.2.2.2.2 rfl rfl
  ⟨h.1, h.2.1, h.2.2 (by simp [main_start, create, INT_MIN])
    (by simp [main_start, create, INT_MAX])⟩

/-- C8: two snapshots taken at the same tick agree on the power draw, the
temperature, the VRAM bandwidth and the efficiency, whatever the two hours and
the two clock readings are (and whatever else the two states hold). -/
theorem C8_signals_depend_on_tick_only {K : Type} [LinearOrderedField K] [FloorRing K]
    (sin cos : K → K) (s1 s2 : HardwareTelemetrySim) (env1 env2 : Surroundings)
    (htick : s1.tick = s2.tick) :
    (take_snapshot sin cos s1 env1).power = (take_snapshot sin cos s2 env2).power
      ∧ (take_snapshot sin cos s1 env1).temp = (take_snapshot sin cos s2 env2).temp
      ∧ (take_snapshot sin cos s1 env1).vram_bw = (take_snapshot sin cos s2 env2).vram_bw
      ∧ (take_snapshot sin cos s1 env1).eff = (take_snapshot sin cos s2 env2).eff := by
  simp [take_snapshot, get_simulated_power_draw_watts, get_simulated_temperature_c,
    get_simulated_vram_bandwidth_usage, get_hbm3e_efficiency, htick]

/-- C8 at tick `7`, hours `19` and `3`, two clock readings and two devices. -/
theorem C8_signals_depend_on_tick_only_witness :
    (take_snapshot (fun x : ℚ => x / 100) (fun x : ℚ => 1 - x / 100)
        { device_index := 0, tick := 7 }
        { tm_hour := 19, epoch_ms := 1700000000123, opens := true }).power
      = (take_snapshot (fun x : ℚ => x / 100) (fun x : ℚ => 1 - x / 100)
        { device_index := 1, tick := 7 }
        { tm_hour := 3, epoch_ms := 1700000000623, opens := false }).power :=
  (C8_signals_depend_on_tick_only (fun x : ℚ => x / 100) (fun x : ℚ => 1 - x / 100)
    { device_index := 0, tick := 7 } { device_index := 1, tick := 7 }
    { tm_hour := 19, epoch_ms := 1700000000123, opens := true }
    { tm_hour := 3, epoch_ms := 1700000000623, opens := false } rfl).1

end GreenArb
